import Mathlib

/-!
# LegalAI: classification engine and document renderer of `src/server.js`

A shallow embedding of the class `LegalAI` (`analyzeCase`, the four per-category
analyzers, `generateDocument` and its three templates), followed by the
properties established about it.

Modelling conventions.

* A JavaScript string is a Lean `String`; `includes` and `toLowerCase` work on its
  list of characters. Every keyword searched for in the source is made of ASCII
  lower-case letters and spaces, so searching code points instead of UTF-16 code
  units gives the same answers.
* A JavaScript number that holds a money amount is an `Int`.
* An object literal is the list of its own properties in source order.
* The printed date and the number format of `toLocaleString()` depend on the
  process, not on the source: both are parameters of the renderer.
-/

namespace LegalAI

/-! ## String primitives used by the source -/

/-- Model of `String.prototype.includes` on character lists: `k` occurs in `s` as a
contiguous block (the empty needle occurs everywhere). -/
def includesChars : List Char → List Char → Bool
  | [], k => k.isEmpty
  | c :: cs, k => k.isPrefixOf (c :: cs) || includesChars cs k

/-- Model of `input.includes(keyword)`. -/
def includes (input keyword : String) : Bool :=
  includesChars input.data keyword.data

/-- Lower-casing of one character, as `String.prototype.toLowerCase` does it when
the result can contain an ASCII letter: `A`..`Z` go to `a`..`z`, U+212A (Kelvin
sign) goes to `k`, and U+0130 goes to `i` followed by U+0307. Every other code
point is mapped by JavaScript to code points outside ASCII; it is kept as it is
here, which no search for an ASCII keyword can observe. -/
def lowerChar (c : Char) : List Char :=
  if c = Char.ofNat 0x212A then ['k']
  else if c = Char.ofNat 0x130 then ['i', Char.ofNat 0x307]
  else [c.toLower]

/-- Model of `userInput.toLowerCase()`. -/
def toLowerCase (userInput : String) : String :=
  ⟨userInput.data.flatMap lowerChar⟩

/-! ## Data model -/

/-- The `damages` object of an assessment: one shape per analyzer, fields in
source order. -/
inductive Damages where
  | criminal (medical pain punitive total : Int)
  | employment (backPay frontPay emotional punitive total : Int)
  | injury (medical lostWages pain total : Int)
  | general (estimated total : Int)
  deriving DecidableEq, Repr

/-- Own properties of a `damages` object, in source order. -/
def Damages.fields : Damages → List (String × Int)
  | .criminal m p pu t => [("medical", m), ("pain", p), ("punitive", pu), ("total", t)]
  | .employment b f e pu t =>
      [("backPay", b), ("frontPay", f), ("emotional", e), ("punitive", pu), ("total", t)]
  | .injury m l p t => [("medical", m), ("lostWages", l), ("pain", p), ("total", t)]
  | .general e t => [("estimated", e), ("total", t)]

/-- Value of `damages.total`. -/
def Damages.total : Damages → Int
  | .criminal _ _ _ t => t
  | .employment _ _ _ _ t => t
  | .injury _ _ _ t => t
  | .general _ t => t

/-- The damage components: every own property other than `total`. -/
def Damages.components (d : Damages) : List (String × Int) :=
  d.fields.filter (fun p => p.1 != "total")

/-- The object returned by the analyzers. -/
structure Assessment where
  issue : String
  type : String
  claims : List String
  damages : Damages
  successProbability : Int
  documents : List String
  actions : List String
  deriving DecidableEq, Repr

/-! ## Classifier / estimator -/

/-- Embedding of `analyzeCriminalCase(input)`, lines 36-80. -/
def analyzeCriminalCase (input : String) : Assessment :=
  let claims : List String := []
  let damages := Damages.criminal 0 0 0 0
  -- Post-conviction release analysis
  let claims :=
    if includes input "post conviction" || includes input "release" then
      claims ++ ["Post-Conviction Relief Petition", "Habeas Corpus Petition",
        "Sentence Modification"]
    else claims
  -- Police brutality analysis
  let (claims, damages) :=
    if includes input "police" && (includes input "beat" || includes input "excessive force") then
      (claims ++ ["Police Brutality - 42 USC § 1983", "Excessive Force",
        "Civil Rights Violation"],
       Damages.criminal 25000 50000 100000 175000)
    else (claims, damages)
  { issue := input
    type := "Criminal/Civil Rights"
    claims := claims
    damages := damages
    successProbability := 65
    documents := ["Post-Conviction Relief Petition", "Civil Rights Complaint",
      "Police Brutality Lawsuit"]
    actions := [
      "File post-conviction relief petition with sentencing court",
      "Submit civil rights complaint for police brutality",
      "Gather medical records and witness statements",
      "Contact civil rights organizations"] }

/-- Mutable `damages` record of `analyzeEmploymentCase`. -/
structure EmploymentDamages where
  backPay : Int
  frontPay : Int
  emotional : Int
  punitive : Int
  total : Int
  deriving DecidableEq, Repr

/-- Embedding of `analyzeEmploymentCase(input)`, lines 82-124. -/
def analyzeEmploymentCase (input : String) : Assessment :=
  let claims : List String := []
  let damages : EmploymentDamages :=
    { backPay := 0, frontPay := 0, emotional := 0, punitive := 0, total := 0 }
  let (claims, damages) :=
    if includes input "fired" || includes input "terminated" then
      (claims ++ ["Wrongful Termination"],
       { damages with backPay := 15000, frontPay := 25000 })
    else (claims, damages)
  let (claims, damages) :=
    if includes input "retaliation" then
      (claims ++ ["Retaliation"], { damages with punitive := 50000 })
    else (claims, damages)
  let (claims, damages) :=
    if includes input "discrimination" then
      (claims ++ ["Employment Discrimination"], { damages with emotional := 25000 })
    else (claims, damages)
  let damages := { damages with
    total := damages.backPay + damages.frontPay + damages.emotional + damages.punitive }
  { issue := input
    type := "Employment Law"
    claims := claims
    damages := Damages.employment damages.backPay damages.frontPay damages.emotional
      damages.punitive damages.total
    successProbability := 75
    documents := ["EEOC Charge", "Wrongful Termination Complaint", "Demand Letter"]
    actions := [
      "File EEOC charge within 180 days",
      "Send demand letter to employer",
      "Document all communications",
      "Preserve evidence and emails"] }

/-- Embedding of `analyzePersonalInjuryCase(input)`, lines 126-146. -/
def analyzePersonalInjuryCase (input : String) : Assessment :=
  { issue := input
    type := "Personal Injury"
    claims := ["Negligence", "Personal Injury"]
    damages := Damages.injury 15000 12000 25000 52000
    successProbability := 80
    documents := ["Personal Injury Complaint", "Demand Letter", "Settlement Agreement"]
    actions := [
      "Send demand letter to insurance company",
      "File personal injury lawsuit",
      "Gather medical records and bills",
      "Document injury and recovery process"] }

/-- Embedding of `analyzeGeneralCase(input)`, lines 148-165. -/
def analyzeGeneralCase (input : String) : Assessment :=
  { issue := input
    type := "General Legal Matter"
    claims := ["Legal Consultation Recommended"]
    damages := Damages.general 25000 25000
    successProbability := 50
    documents := ["Legal Consultation Form"]
    actions := [
      "Consult with specialized attorney",
      "Research specific laws in your state",
      "Gather all relevant documentation"] }

/-- Embedding of `analyzeCase(userInput)`, lines 14-34: the category is chosen on the
lower-cased text, the analyzer is called on the text as given. -/
def analyzeCase (userInput : String) : Assessment :=
  let input := toLowerCase userInput
  -- Criminal Law Analysis
  if includes input "post conviction" || includes input "police" || includes input "beat"
      || includes input "excessive force" then
    analyzeCriminalCase userInput
  -- Employment Law Analysis
  else if includes input "employer" || includes input "fired" || includes input "terminated"
      || includes input "work" then
    analyzeEmploymentCase userInput
  -- Personal Injury Analysis
  else if includes input "injured" || includes input "accident" || includes input "medical"
      || includes input "hurt" then
    analyzePersonalInjuryCase userInput
  -- Default analysis
  else analyzeGeneralCase userInput

/-! ## Document renderer -/

/-- A value of the request body where a template literal prints it: `text s` when
its conversion to a string gives `s` (a string prints as itself, a missing field
as `undefined`, a number in decimal, an object without an own `toString` as
`[object Object]`), `unprintable` when the conversion throws, which is the case
of an object whose own property `toString` is not a function. -/
inductive TemplateValue where
  | text (s : String)
  | unprintable
  deriving DecidableEq, Repr

/-- Conversion of a substituted value to a string inside a template literal. -/
def TemplateValue.toText : TemplateValue → Except String String
  | .text s => .ok s
  | .unprintable => .error "TypeError: Cannot convert object to primitive value"

/-- The request field `caseData.claims` as `.map` meets it: missing, present but
not an array (a string, a number, an object), or an array of values. -/
inductive ClaimsField where
  | missing
  | notArray
  | array (claims : List TemplateValue)
  deriving DecidableEq, Repr

/-- The request field `caseData` as the templates read it. `damages` is `none`
when `caseData.damages` is missing, and a `damages` object without the key
`total` has `damages.total` undefined. -/
structure CaseData where
  type : TemplateValue
  issue : TemplateValue
  claims : ClaimsField
  damages : Option (List (String × Int))
  deriving DecidableEq, Repr

/-- An assessment passed on as `caseData`. -/
def Assessment.toCaseData (a : Assessment) : CaseData :=
  { type := .text a.type, issue := .text a.issue,
    claims := .array (a.claims.map TemplateValue.text),
    damages := some a.damages.fields }

/-- Digits of a natural number with a comma before every group of three. -/
def groupDigits : List Char → List Char
  | [] => []
  | c :: cs =>
    if cs.length % 3 == 0 && !cs.isEmpty then c :: ',' :: groupDigits cs
    else c :: groupDigits cs

/-- What `Number.prototype.toLocaleString()` returns for an integer when the
default locale of the process is `en-US`: a comma before every group of three
digits. The source calls `toLocaleString()` without a locale, so the format in
use is a parameter of the templates; this is one value of it. -/
def toLocaleStringEnUS (n : Int) : String :=
  let digits : String := ⟨groupDigits (Nat.toDigits 10 n.natAbs)⟩
  if n < 0 then "-" ++ digits else digits

/-- What `Number.prototype.toLocaleString()` returns for an integer when the
default locale of the process is `de-DE`: a full stop before every group of
three digits. -/
def toLocaleStringDeDE (n : Int) : String :=
  let digits : String :=
    ⟨(groupDigits (Nat.toDigits 10 n.natAbs)).map (fun c => if c = ',' then '.' else c)⟩
  if n < 0 then "-" ++ digits else digits

/-- Digits of a natural number in the Indian grouping: a comma before the last
three digits and before every group of two digits in front of them. -/
def groupDigitsIndian : List Char → List Char
  | [] => []
  | c :: cs =>
    if 3 ≤ cs.length && (cs.length - 3) % 2 == 0 then c :: ',' :: groupDigitsIndian cs
    else c :: groupDigitsIndian cs

/-- What `Number.prototype.toLocaleString()` returns for an integer when the
default locale of the process is `en-IN`. -/
def toLocaleStringEnIN (n : Int) : String :=
  let digits : String := ⟨groupDigitsIndian (Nat.toDigits 10 n.natAbs)⟩
  if n < 0 then "-" ++ digits else digits

/-- White space and line terminators of ECMAScript, the characters `trim` removes. -/
def isWhiteSpace (c : Char) : Bool :=
  let n := c.toNat
  n == 0x9 || n == 0xA || n == 0xB || n == 0xC || n == 0xD || n == 0x20 || n == 0xA0
    || n == 0x1680 || (0x2000 ≤ n && n ≤ 0x200A) || n == 0x2028 || n == 0x2029
    || n == 0x202F || n == 0x205F || n == 0x3000 || n == 0xFEFF

/-- Model of `String.prototype.trim`. -/
def trim (s : String) : String :=
  ⟨((s.data.dropWhile isWhiteSpace).reverse.dropWhile isWhiteSpace).reverse⟩

/-- Read of `caseData.claims` for the call of `.map`, which throws on a missing
field and on a value that has no method `map`. -/
def claimsOf (caseData : CaseData) : Except String (List TemplateValue) :=
  match caseData.claims with
  | .array cs => .ok cs
  | .missing => .error "TypeError: Cannot read properties of undefined (reading 'map')"
  | .notArray => .error "TypeError: caseData.claims.map is not a function"

/-- Model of `claims.map((claim, index) => ...)` with a callback that prints
`claim` in a template literal: `line index text` is the line built from the
printed claim, `index` counts from the given start. -/
def mapClaims (line : Nat → String → String) :
    Nat → List TemplateValue → Except String (List String)
  | _, [] => .ok []
  | index, claim :: rest => do
    let text ← claim.toText
    let lines ← mapClaims line (index + 1) rest
    pure (line index text :: lines)

/-- Evaluation of `caseData.damages.total.toLocaleString()`, throwing where `damages` or
`damages.total` is undefined; `toLocaleString` is the number format of the
default locale of the process. -/
def totalOf (toLocaleString : Int → String) (caseData : CaseData) : Except String String :=
  match caseData.damages with
  | none => .error "TypeError: Cannot read properties of undefined (reading 'total')"
  | some d =>
    match d.lookup "total" with
    | none => .error "TypeError: Cannot read properties of undefined (reading 'toLocaleString')"
    | some t => .ok (toLocaleString t)

/-- Embedding of `generateDemandLetter(caseData)`, lines 177-200; `today` stands for
`new Date().toLocaleDateString()` and `toLocaleString` for the number format of
the default locale. The substitutions are evaluated in source order. -/
def generateDemandLetter (toLocaleString : Int → String) (today : String)
    (caseData : CaseData) : Except String String := do
  let type ← caseData.type.toText
  let issue ← caseData.issue.toText
  let claims ← claimsOf caseData
  let lines ← mapClaims (fun _ claim => "• " ++ claim) 0 claims
  let total ← totalOf toLocaleString caseData
  pure (trim ("\nDEMAND LETTER\n\nDate: " ++ today
    ++ "\n\nTo Whom It May Concern:\n\nRE: Legal Claim - " ++ type
    ++ "\n\nThis letter serves as formal notice of our intent to pursue legal action regarding: "
    ++ issue
    ++ "\n\nBased on our analysis, we have identified the following claims:\n"
    ++ "\n".intercalate lines
    ++ "\n\nTotal damages claimed: $" ++ total
    ++ "\n\nWe demand settlement of this matter within 30 days to avoid formal litigation."
    ++ "\n\nSincerely,\nAPGC Legal AI\nAmerican Power Global Corporation\n    "))

/-- Embedding of `generateComplaint(caseData)`, lines 202-226; `toLocaleString` stands
for the number format of the default locale. -/
def generateComplaint (toLocaleString : Int → String) (caseData : CaseData) :
    Except String String := do
  let issue ← caseData.issue.toText
  let claims ← claimsOf caseData
  let lines ← mapClaims (fun index claim => toString (index + 1) ++ ". " ++ claim) 0 claims
  let total ← totalOf toLocaleString caseData
  pure (trim ("\nIN THE UNITED STATES DISTRICT COURT\nCOMPLAINT\n\nPlaintiff: [Your Name]\nvs."
    ++ "\nDefendant: [Opposing Party]\n\n1. This action arises from: " ++ issue
    ++ "\n\n2. Jurisdiction: This Court has jurisdiction under 28 U.S.C. § 1331\n\n3. Claims:\n"
    ++ "\n".intercalate lines
    ++ "\n\n4. Damages: $" ++ total
    ++ "\n\nWHEREFORE, Plaintiff requests judgment against Defendant."
    ++ "\n\nRespectfully submitted,\n[Your Name]\nPro Se\n    "))

/-- Embedding of `generatePostConvictionPetition(caseData)`, lines 228-252. -/
def generatePostConvictionPetition (caseData : CaseData) : Except String String := do
  let issue ← caseData.issue.toText
  pure (trim (
    "\nIN THE [STATE] SUPERIOR COURT\nPOST-CONVICTION RELIEF PETITION\n\nPetitioner: [Your Name]"
    ++ "\nCase No: [Your Case Number]\n\n1. The Petitioner seeks post-conviction relief based on: "
    ++ issue
    ++ "\n\n2. Grounds for Relief:\n   • Ineffective assistance of counsel"
    ++ "\n   • Newly discovered evidence\n   • Constitutional violations"
    ++ "\n\n3. Requested Relief:\n   • Vacate conviction\n   • Reduce sentence\n   • New trial"
    ++ "\n\nRespectfully submitted,\n[Your Name]\nPro Se\n    "))

/-- What `templates[docType] || ...` can evaluate to: a string, `undefined`, or a
member that the object literal `templates` inherits from `Object.prototype`. -/
inductive JSValue where
  | undefined
  | string (s : String)
  | inherited (key : String)
  deriving DecidableEq, Repr

/-- Property names that every object literal inherits from `Object.prototype`
(ECMAScript 20.1.3 and Annex B.2.2). -/
def objectPrototypeKeys : List String :=
  ["constructor", "__defineGetter__", "__defineSetter__", "hasOwnProperty",
   "__lookupGetter__", "__lookupSetter__", "isPrototypeOf", "propertyIsEnumerable",
   "toString", "valueOf", "__proto__", "toLocaleString"]

/-- Property read `templates[docType]` on an object literal: own properties
first, then the prototype. -/
def getProperty (templates : List (String × String)) (docType : String) : JSValue :=
  match templates.lookup docType with
  | some text => .string text
  | none => if objectPrototypeKeys.contains docType then .inherited docType else .undefined

/-- Truthiness of a value: `undefined` and the empty string are falsy. -/
def JSValue.truthy : JSValue → Bool
  | .undefined => false
  | .string s => s != ""
  | .inherited _ => true

/-- Embedding of `generateDocument(docType, caseData)`, lines 167-175: the three templates are
rendered first, in source order, then `docType` is looked up. `toLocaleString`
and `today` stand for the number format and the printed date of the process. -/
def generateDocument (toLocaleString : Int → String) (today docType : String)
    (caseData : CaseData) : Except String JSValue := do
  let demandLetter ← generateDemandLetter toLocaleString today caseData
  let complaint ← generateComplaint toLocaleString caseData
  let petition ← generatePostConvictionPetition caseData
  let templates := [("Demand Letter", demandLetter), ("Legal Complaint", complaint),
    ("Post-Conviction Petition", petition)]
  let found := getProperty templates docType
  pure (if found.truthy then found else .string "Document template not found")

/-! ## Vocabulary of the properties -/

/-- Keywords that select the Criminal/Civil Rights analyzer (line 18). -/
def criminalKeywords : List String := ["post conviction", "police", "beat", "excessive force"]

/-- Keywords that select the Employment analyzer (line 23). -/
def employmentKeywords : List String := ["employer", "fired", "terminated", "work"]

/-- Keywords that select the Personal Injury analyzer (line 28). -/
def injuryKeywords : List String := ["injured", "accident", "medical", "hurt"]

/-- Some keyword of the list occurs in the text. -/
def containsAny (text : String) (keywords : List String) : Bool :=
  keywords.any (fun k => includes text k)

/-- Sum of the amounts of a list of named damage components. -/
def sumAmounts (components : List (String × Int)) : Int :=
  (components.map Prod.snd).sum

/-- The labels whose trigger fired, in list order. -/
def firedLabels (rules : List (String × Bool)) : List String :=
  (rules.filter Prod.snd).map Prod.fst

/-- The lines `k. c`, `k+1. c'`, ... that number a list of claims from `k` on. -/
def numberedFrom : Nat → List String → List String
  | _, [] => []
  | k, c :: cs => (toString k ++ ". " ++ c) :: numberedFrom (k + 1) cs

/-- The conversion of the value to a string does not throw. -/
def TemplateValue.printable : TemplateValue → Bool
  | .text _ => true
  | .unprintable => false

/-- A request body with a claims list and a numeric `damages.total` whose `issue`
is an object that cannot be converted to a string, such as
`{"toString": 1}`. -/
def unprintableIssueCase : CaseData :=
  { type := .text "Employment Law"
    issue := .unprintable
    claims := .array [.text "Wrongful Termination"]
    damages := some [("total", 40000)] }

/-- The characters that the three templates carry after their last line: a line
break and four blanks. -/
def templateTail : List Char := ['\n', ' ', ' ', ' ', ' ']

/-! ## Lemmas on the string primitives -/

theorem includesChars_iff_occurs (s k : List Char) : includesChars s k = true ↔ k <:+: s := by
  induction s with
  | nil => simp [includesChars, List.isEmpty_iff]
  | cons c cs ih =>
    simp only [includesChars, Bool.or_eq_true, ih, List.isPrefixOf_iff_prefix]
    exact List.infix_cons_iff.symm

theorem includesChars_flatMap (f : Char → List Char) (s k : List Char)
    (h : includesChars s k = true) :
    includesChars (s.flatMap f) (k.flatMap f) = true := by
  rw [includesChars_iff_occurs] at h ⊢
  obtain ⟨a, b, rfl⟩ := h
  exact ⟨a.flatMap f, b.flatMap f, by simp [List.flatMap_append]⟩

/-- A keyword that lower-casing leaves alone and that occurs in a text also
occurs in the lower-cased text. -/
theorem includes_toLowerCase (s k : String) (hk : k.data.flatMap lowerChar = k.data)
    (h : includes s k = true) : includes (toLowerCase s) k = true := by
  unfold includes toLowerCase at *
  have key := includesChars_flatMap lowerChar s.data k.data h
  rwa [hk] at key

/-! ## Lemmas on the analyzers -/

/-- The dispatcher as a cascade over the three keyword lists. -/
theorem analyzeCase_eq (s : String) :
    analyzeCase s =
      if containsAny (toLowerCase s) criminalKeywords then analyzeCriminalCase s
      else if containsAny (toLowerCase s) employmentKeywords then analyzeEmploymentCase s
      else if containsAny (toLowerCase s) injuryKeywords then analyzePersonalInjuryCase s
      else analyzeGeneralCase s := by
  simp [analyzeCase, containsAny, criminalKeywords, employmentKeywords, injuryKeywords,
    List.any, Bool.or_assoc]

/-- Closed form of the employment analyzer in terms of its three triggers. -/
theorem analyzeEmploymentCase_eq (input : String) :
    analyzeEmploymentCase input =
      { issue := input
        type := "Employment Law"
        claims := firedLabels [
          ("Wrongful Termination", includes input "fired" || includes input "terminated"),
          ("Retaliation", includes input "retaliation"),
          ("Employment Discrimination", includes input "discrimination")]
        damages := Damages.employment
          (if includes input "fired" || includes input "terminated" then 15000 else 0)
          (if includes input "fired" || includes input "terminated" then 25000 else 0)
          (if includes input "discrimination" then 25000 else 0)
          (if includes input "retaliation" then 50000 else 0)
          ((if includes input "fired" || includes input "terminated" then 15000 else 0)
            + (if includes input "fired" || includes input "terminated" then 25000 else 0)
            + (if includes input "discrimination" then 25000 else 0)
            + (if includes input "retaliation" then 50000 else 0))
        successProbability := 75
        documents := ["EEOC Charge", "Wrongful Termination Complaint", "Demand Letter"]
        actions := [
          "File EEOC charge within 180 days",
          "Send demand letter to employer",
          "Document all communications",
          "Preserve evidence and emails"] } := by
  unfold analyzeEmploymentCase
  generalize (includes input "fired" || includes input "terminated") = t1
  generalize includes input "retaliation" = t2
  generalize includes input "discrimination" = t3
  cases t1 <;> cases t2 <;> cases t3 <;> rfl

/-- Closed form of the claims and damages of the criminal analyzer. -/
theorem analyzeCriminalCase_eq (input : String) :
    (analyzeCriminalCase input).claims =
        firedLabels [
          ("Post-Conviction Relief Petition",
            includes input "post conviction" || includes input "release"),
          ("Habeas Corpus Petition",
            includes input "post conviction" || includes input "release"),
          ("Sentence Modification",
            includes input "post conviction" || includes input "release"),
          ("Police Brutality - 42 USC § 1983",
            includes input "police" && (includes input "beat" || includes input "excessive force")),
          ("Excessive Force",
            includes input "police" && (includes input "beat" || includes input "excessive force")),
          ("Civil Rights Violation",
            includes input "police" && (includes input "beat" || includes input "excessive force"))]
      ∧ (analyzeCriminalCase input).damages =
        (if includes input "police" && (includes input "beat" || includes input "excessive force")
          then Damages.criminal 25000 50000 100000 175000 else Damages.criminal 0 0 0 0) := by
  unfold analyzeCriminalCase
  generalize (includes input "post conviction" || includes input "release") = t1
  generalize
    (includes input "police" && (includes input "beat" || includes input "excessive force")) = t2
  cases t1 <;> cases t2 <;> exact ⟨rfl, rfl⟩

/-- With no Criminal/Civil Rights keyword and an Employment keyword in the
lower-cased text the employment analyzer runs. -/
theorem analyzeCase_employment (s : String)
    (hc : containsAny (toLowerCase s) criminalKeywords = false)
    (he : containsAny (toLowerCase s) employmentKeywords = true) :
    analyzeCase s = analyzeEmploymentCase s := by
  rw [analyzeCase_eq, if_neg (by simp [hc]), if_pos he]

theorem analyzeCriminalCase_type (input : String) :
    (analyzeCriminalCase input).type = "Criminal/Civil Rights" := by
  unfold analyzeCriminalCase
  generalize (includes input "post conviction" || includes input "release") = t1
  generalize
    (includes input "police" && (includes input "beat" || includes input "excessive force")) = t2
  cases t1 <;> cases t2 <;> rfl

theorem analyzeEmploymentCase_type (input : String) :
    (analyzeEmploymentCase input).type = "Employment Law" := by
  rw [analyzeEmploymentCase_eq]

theorem analyzePersonalInjuryCase_type (input : String) :
    (analyzePersonalInjuryCase input).type = "Personal Injury" := rfl

theorem analyzeGeneralCase_type (input : String) :
    (analyzeGeneralCase input).type = "General Legal Matter" := rfl

/-- An assessment of type Employment Law comes from the employment analyzer. -/
theorem analyzeCase_of_type_employment (s : String)
    (h : (analyzeCase s).type = "Employment Law") :
    analyzeCase s = analyzeEmploymentCase s := by
  rw [analyzeCase_eq] at h ⊢
  split_ifs at h ⊢ with h1 h2 h3
  · rw [analyzeCriminalCase_type] at h; exact absurd h (by decide)
  · rfl
  · rw [analyzePersonalInjuryCase_type] at h; exact absurd h (by decide)
  · rw [analyzeGeneralCase_type] at h; exact absurd h (by decide)


/-! ## Lemmas on the renderer -/

/-- Claims that are strings are all printed, each through the callback. -/
theorem mapClaims_text (line : Nat → String → String) (k : Nat) (cs : List String) :
    mapClaims line k (cs.map TemplateValue.text)
      = Except.ok ((cs.enumFrom k).map (fun p => line p.1 p.2)) := by
  induction cs generalizing k with
  | nil => rfl
  | cons c cs ih =>
    simp only [List.map_cons, mapClaims, TemplateValue.toText, ih, bind, Except.bind, pure,
      Except.pure, List.enumFrom]

/-- For an assessment passed on as `caseData`, the total is read and printed. -/
theorem totalOf_toCaseData (toLocaleString : Int → String) (a : Assessment) :
    totalOf toLocaleString a.toCaseData = Except.ok (toLocaleString a.damages.total) := by
  unfold totalOf Assessment.toCaseData
  cases a.damages <;> rfl

/-- For an assessment the demand letter is rendered. -/
theorem generateDemandLetter_toCaseData (toLocaleString : Int → String) (today : String)
    (a : Assessment) :
    ∃ text, generateDemandLetter toLocaleString today a.toCaseData = Except.ok text := by
  have hc : claimsOf a.toCaseData = Except.ok (a.claims.map TemplateValue.text) := rfl
  have ht : a.toCaseData.type = TemplateValue.text a.type := rfl
  have hi : a.toCaseData.issue = TemplateValue.text a.issue := rfl
  simp only [generateDemandLetter, totalOf_toCaseData, hc, ht, hi, TemplateValue.toText,
    mapClaims_text, bind, Except.bind, pure, Except.pure]
  exact ⟨_, rfl⟩

/-- For an assessment the complaint is rendered. -/
theorem generateComplaint_toCaseData (toLocaleString : Int → String) (a : Assessment) :
    ∃ text, generateComplaint toLocaleString a.toCaseData = Except.ok text := by
  have hc : claimsOf a.toCaseData = Except.ok (a.claims.map TemplateValue.text) := rfl
  have hi : a.toCaseData.issue = TemplateValue.text a.issue := rfl
  simp only [generateComplaint, totalOf_toCaseData, hc, hi, TemplateValue.toText,
    mapClaims_text, bind, Except.bind, pure, Except.pure]
  exact ⟨_, rfl⟩

/-- For an assessment the petition is rendered. -/
theorem generatePostConvictionPetition_toCaseData (a : Assessment) :
    ∃ text, generatePostConvictionPetition a.toCaseData = Except.ok text :=
  ⟨_, rfl⟩

/-! ## Settled properties -/

/-- C1: for every input string the `total` of the damages returned by
`analyzeCase` is the sum of the other damage components, and every field of the
damages object is a non-negative integer. -/
theorem damages_total_is_sum_of_components (s : String) :
    (analyzeCase s).damages.fields.lookup "total"
        = some (sumAmounts (analyzeCase s).damages.components)
      ∧ (analyzeCase s).damages.total = sumAmounts (analyzeCase s).damages.components
      ∧ (analyzeCase s).damages.fields.all (fun p => decide (0 ≤ p.2)) = true := by
  rw [analyzeCase_eq]
  split_ifs
  · rw [(analyzeCriminalCase_eq s).2]
    generalize
      (includes s "police" && (includes s "beat" || includes s "excessive force")) = t
    cases t <;> exact ⟨rfl, rfl, rfl⟩
  · rw [analyzeEmploymentCase_eq]
    generalize (includes s "fired" || includes s "terminated") = t1
    generalize includes s "retaliation" = t2
    generalize includes s "discrimination" = t3
    cases t1 <;> cases t2 <;> cases t3 <;> exact ⟨rfl, rfl, rfl⟩
  · exact ⟨rfl, rfl, rfl⟩
  · exact ⟨rfl, rfl, rfl⟩

/-- C2: the type returned by `analyzeCase` is decided on the lower-cased text by
the first keyword list that has a match, in the order Criminal/Civil Rights,
Employment Law, Personal Injury, and is General Legal Matter when none has. -/
theorem type_is_first_matching_category (s : String) :
    (analyzeCase s).type =
      if containsAny (toLowerCase s) ["post conviction", "police", "beat", "excessive force"]
        then "Criminal/Civil Rights"
      else if containsAny (toLowerCase s) ["employer", "fired", "terminated", "work"]
        then "Employment Law"
      else if containsAny (toLowerCase s) ["injured", "accident", "medical", "hurt"]
        then "Personal Injury"
      else "General Legal Matter" := by
  rw [analyzeCase_eq]
  simp only [criminalKeywords, employmentKeywords, injuryKeywords]
  split_ifs
  · exact analyzeCriminalCase_type s
  · exact analyzeEmploymentCase_type s
  · rfl
  · rfl

/-- C3, as stated, fails: on "My employer fired me and retaliated against me"
the claims are not Wrongful Termination followed by Retaliation, and the damages
are not 15000, 25000, 0, 50000 with total 90000. -/
theorem retaliated_example_refuted :
    ¬ ((analyzeCase "My employer fired me and retaliated against me").type = "Employment Law"
      ∧ (analyzeCase "My employer fired me and retaliated against me").claims
          = ["Wrongful Termination", "Retaliation"]
      ∧ (analyzeCase "My employer fired me and retaliated against me").damages
          = Damages.employment 15000 25000 0 50000 90000
      ∧ (analyzeCase "My employer fired me and retaliated against me").successProbability
          = 75) := by
  decide

/-- C3, amended: on "My employer fired me and retaliated against me" the type is
Employment Law, the only claim is Wrongful Termination, the damages are back pay
15000, front pay 25000, emotional 0, punitive 0, total 40000, and the success
probability is 75; the text does not contain the keyword "retaliation". -/
theorem retaliated_example :
    (analyzeCase "My employer fired me and retaliated against me").type = "Employment Law"
      ∧ (analyzeCase "My employer fired me and retaliated against me").claims
          = ["Wrongful Termination"]
      ∧ (analyzeCase "My employer fired me and retaliated against me").damages.fields
          = [("backPay", 15000), ("frontPay", 25000), ("emotional", 0), ("punitive", 0),
              ("total", 40000)]
      ∧ (analyzeCase "My employer fired me and retaliated against me").successProbability = 75
      ∧ includes "My employer fired me and retaliated against me" "retaliation" = false := by
  decide

/-- C4 at the input "FIRED": the category is found on the lower-cased text, the
sub-conditions are tested on the text as given, so "FIRED" and its lower-cased
form "fired" get the same type but different claims and damages. -/
theorem upper_case_fired_loses_claim :
    toLowerCase "FIRED" = "fired"
      ∧ (analyzeCase "FIRED").type = (analyzeCase (toLowerCase "FIRED")).type
      ∧ (analyzeCase "FIRED").claims = []
      ∧ (analyzeCase "FIRED").damages = Damages.employment 0 0 0 0 0
      ∧ (analyzeCase (toLowerCase "FIRED")).claims = ["Wrongful Termination"]
      ∧ (analyzeCase (toLowerCase "FIRED")).damages
          = Damages.employment 15000 25000 0 0 40000 := by
  decide

/-- C5 at the document type "toString": the lookup in the object literal
`templates` finds the member inherited from `Object.prototype`, which is
truthy, so the sentinel string is not returned. -/
theorem generateDocument_inherited_key (toLocaleString : Int → String) (today : String) :
    generateDocument toLocaleString today "toString" (analyzeCase "I was fired").toCaseData
        = Except.ok (JSValue.inherited "toString")
      ∧ generateDocument toLocaleString today "toString" (analyzeCase "I was fired").toCaseData
        ≠ Except.ok (JSValue.string "Document template not found") := by
  refine ⟨rfl, ?_⟩
  have h : generateDocument toLocaleString today "toString"
      (analyzeCase "I was fired").toCaseData
      = Except.ok (JSValue.inherited "toString") := rfl
  rw [h]
  intro hc
  cases hc

/-- For a well-formed assessment and a document type that is neither one of the
three template names nor a member inherited from `Object.prototype`, the
sentinel string is returned and nothing is thrown. -/
theorem generateDocument_unknown (toLocaleString : Int → String) (today docType : String)
    (a : Assessment)
    (h1 : docType ≠ "Demand Letter") (h2 : docType ≠ "Legal Complaint")
    (h3 : docType ≠ "Post-Conviction Petition")
    (h4 : objectPrototypeKeys.contains docType = false) :
    generateDocument toLocaleString today docType a.toCaseData
      = Except.ok (JSValue.string "Document template not found") := by
  have hd := generateDemandLetter_toCaseData toLocaleString today a
  have hc := generateComplaint_toCaseData toLocaleString a
  have hp := generatePostConvictionPetition_toCaseData a
  obtain ⟨d, hd⟩ := hd
  obtain ⟨c, hc⟩ := hc
  obtain ⟨p, hp⟩ := hp
  simp only [generateDocument, hd, hc, hp, bind, Except.bind, pure, Except.pure, getProperty,
    List.lookup]
  have e1 : (docType == "Demand Letter") = false := by simpa using h1
  have e2 : (docType == "Legal Complaint") = false := by simpa using h2
  have e3 : (docType == "Post-Conviction Petition") = false := by simpa using h3
  have e4 : docType ∉ objectPrototypeKeys := by simpa using h4
  simp [e1, e2, e3, e4, JSValue.truthy]

/-- C6 at the input "I was Terminated": the lower-cased text contains
"terminated", which makes the type Employment Law, but the analyzer tests the
text as given, so the trigger of Wrongful Termination is missed and the claims
are empty and the damages all 0; the lower-cased input gets Wrongful
Termination, back pay 15000, front pay 25000 and total 40000. -/
theorem employment_trigger_misses_capitals :
    (analyzeCase "I was Terminated").type = "Employment Law"
      ∧ includes (toLowerCase "I was Terminated") "terminated" = true
      ∧ (analyzeCase "I was Terminated").claims = []
      ∧ (analyzeCase "I was Terminated").damages.fields
          = [("backPay", 0), ("frontPay", 0), ("emotional", 0), ("punitive", 0), ("total", 0)]
      ∧ (analyzeCase "I was Terminated").successProbability = 75
      ∧ (analyzeCase "i was terminated").claims = ["Wrongful Termination"]
      ∧ (analyzeCase "i was terminated").damages.fields
          = [("backPay", 15000), ("frontPay", 25000), ("emotional", 0), ("punitive", 0),
              ("total", 40000)] := by
  decide

/-- C7 at the input "Police used excessive force": the lower-cased text contains
"police" and "excessive force" and neither "post conviction" nor "release",
which makes the type Criminal/Civil Rights, but the analyzer tests the text as
given and misses "police", so the claims are empty and the total is 0; the
lower-cased input gets the three police-brutality claims and total 175000. -/
theorem police_trigger_misses_capitals :
    (analyzeCase "Police used excessive force").type = "Criminal/Civil Rights"
      ∧ includes (toLowerCase "Police used excessive force") "police" = true
      ∧ includes (toLowerCase "Police used excessive force") "excessive force" = true
      ∧ containsAny (toLowerCase "Police used excessive force")
          ["post conviction", "release"] = false
      ∧ (analyzeCase "Police used excessive force").claims = []
      ∧ (analyzeCase "Police used excessive force").damages.total = 0
      ∧ (analyzeCase "police used excessive force").claims
          = ["Police Brutality - 42 USC § 1983", "Excessive Force", "Civil Rights Violation"]
      ∧ (analyzeCase "police used excessive force").damages.total = 175000 := by
  decide

/-- C8, as stated, fails: "the police fired me in retaliation for reporting
discrimination" contains "fired", "retaliation" and "discrimination", yet it is
assessed as Criminal/Civil Rights with no claims and a damages total of 0. -/
theorem fired_retaliation_discrimination_refuted :
    includes "the police fired me in retaliation for reporting discrimination" "fired" = true
      ∧ includes "the police fired me in retaliation for reporting discrimination"
          "retaliation" = true
      ∧ includes "the police fired me in retaliation for reporting discrimination"
          "discrimination" = true
      ∧ (analyzeCase "the police fired me in retaliation for reporting discrimination").type
          = "Criminal/Civil Rights"
      ∧ (analyzeCase "the police fired me in retaliation for reporting discrimination").claims
          = []
      ∧ (analyzeCase
          "the police fired me in retaliation for reporting discrimination").damages.total = 0
      ∧ (analyzeCase
          "the police fired me in retaliation for reporting discrimination").damages.total
          ≠ 115000 := by
  decide

/-- C8, amended: an input that contains "fired", "retaliation" and
"discrimination" and whose lower-cased text contains none of the Criminal/Civil
Rights keywords gets a damages total of 115000 and the claims Wrongful
Termination, Retaliation, Employment Discrimination, in that order. -/
theorem fired_retaliation_discrimination (s : String)
    (hf : includes s "fired" = true) (hr : includes s "retaliation" = true)
    (hd : includes s "discrimination" = true)
    (hc : containsAny (toLowerCase s)
      ["post conviction", "police", "beat", "excessive force"] = false) :
    (analyzeCase s).damages.total = 115000
      ∧ (analyzeCase s).claims
        = ["Wrongful Termination", "Retaliation", "Employment Discrimination"] := by
  have hL : includes (toLowerCase s) "fired" = true :=
    includes_toLowerCase s "fired" (by decide) hf
  have he : containsAny (toLowerCase s) employmentKeywords = true := by
    simp [containsAny, employmentKeywords, hL]
  rw [analyzeCase_employment s hc he, analyzeEmploymentCase_eq, hf, hr, hd]
  exact ⟨rfl, rfl⟩

/-- Witness of the amended C8. -/
theorem fired_retaliation_discrimination_witness :
    (analyzeCase "fired in retaliation after I reported discrimination").damages.total = 115000
      ∧ (analyzeCase "fired in retaliation after I reported discrimination").claims
        = ["Wrongful Termination", "Retaliation", "Employment Discrimination"] :=
  fired_retaliation_discrimination "fired in retaliation after I reported discrimination"
    (by decide) (by decide) (by decide) (by decide)

/-- C9 at the input "I was Fired": the lower-cased text contains "fired" and none
of "post conviction", "police", "beat", "excessive force", "terminated",
"retaliation", "discrimination", which makes the type Employment Law, but the
analyzer tests the text as given and misses "fired", so the claims are empty
and the total is 0; the lower-cased input gets the single claim Wrongful
Termination and total 40000. -/
theorem only_fired_misses_capitals :
    includes (toLowerCase "I was Fired") "fired" = true
      ∧ containsAny (toLowerCase "I was Fired")
          ["post conviction", "police", "beat", "excessive force", "terminated", "retaliation",
            "discrimination"] = false
      ∧ (analyzeCase "I was Fired").type = "Employment Law"
      ∧ (analyzeCase "I was Fired").claims = []
      ∧ (analyzeCase "I was Fired").damages.total = 0
      ∧ (analyzeCase "i was fired").claims = ["Wrongful Termination"]
      ∧ (analyzeCase "i was fired").damages.total = 40000 := by
  decide

/-- C10: `analyzeCase` is a total function of the input string, and an input
whose lower-cased text contains none of the twelve category keywords gets the
General assessment: type General Legal Matter, the single claim Legal
Consultation Recommended, damages estimated 25000 and total 25000, and success
probability 50. -/
theorem general_fallback (s : String)
    (h : containsAny (toLowerCase s)
      ["post conviction", "police", "beat", "excessive force",
       "employer", "fired", "terminated", "work",
       "injured", "accident", "medical", "hurt"] = false) :
    analyzeCase s = analyzeGeneralCase s
      ∧ (analyzeCase s).type = "General Legal Matter"
      ∧ (analyzeCase s).claims = ["Legal Consultation Recommended"]
      ∧ (analyzeCase s).damages.fields = [("estimated", 25000), ("total", 25000)]
      ∧ (analyzeCase s).successProbability = 50 := by
  have e : analyzeCase s = analyzeGeneralCase s := by
    simp only [containsAny, List.any, Bool.or_false, Bool.or_eq_false_iff] at h
    obtain ⟨h1, h2, h3, h4, h5, h6, h7, h8, h9, h10, h11, h12⟩ := h
    simp [analyzeCase, h1, h2, h3, h4, h5, h6, h7, h8, h9, h10, h11, h12]
  rw [e]
  exact ⟨rfl, rfl, rfl, rfl, rfl⟩

/-- Witness of C10 at the empty string. -/
theorem general_fallback_witness :
    analyzeCase "" = analyzeGeneralCase ""
      ∧ (analyzeCase "").type = "General Legal Matter"
      ∧ (analyzeCase "").claims = ["Legal Consultation Recommended"]
      ∧ (analyzeCase "").damages.fields = [("estimated", 25000), ("total", 25000)]
      ∧ (analyzeCase "").successProbability = 50 :=
  general_fallback "" (by decide)

/-! ## Further lemmas on the analyzers -/

/-- An assessment of type Criminal/Civil Rights comes from the criminal
analyzer. -/
theorem analyzeCase_of_type_criminal (s : String)
    (h : (analyzeCase s).type = "Criminal/Civil Rights") :
    analyzeCase s = analyzeCriminalCase s := by
  rw [analyzeCase_eq] at h ⊢
  split_ifs at h ⊢ with h1 h2 h3
  · rfl
  · rw [analyzeEmploymentCase_type] at h; exact absurd h (by decide)
  · rw [analyzePersonalInjuryCase_type] at h; exact absurd h (by decide)
  · rw [analyzeGeneralCase_type] at h; exact absurd h (by decide)

/-- The fields of the criminal analyzer that no sub-condition touches. -/
theorem analyzeCriminalCase_fixed (input : String) :
    (analyzeCriminalCase input).issue = input
      ∧ (analyzeCriminalCase input).successProbability = 65
      ∧ (analyzeCriminalCase input).documents = ["Post-Conviction Relief Petition",
          "Civil Rights Complaint", "Police Brutality Lawsuit"]
      ∧ (analyzeCriminalCase input).actions = (analyzeCriminalCase "").actions := by
  unfold analyzeCriminalCase
  generalize (includes input "post conviction" || includes input "release") = t1
  generalize
    (includes input "police" && (includes input "beat" || includes input "excessive force")) = t2
  cases t1 <;> cases t2 <;> exact ⟨rfl, rfl, rfl, rfl⟩

/-- The fields of the employment analyzer that no sub-condition touches. -/
theorem analyzeEmploymentCase_fixed (input : String) :
    (analyzeEmploymentCase input).issue = input
      ∧ (analyzeEmploymentCase input).successProbability = 75
      ∧ (analyzeEmploymentCase input).documents = ["EEOC Charge",
          "Wrongful Termination Complaint", "Demand Letter"]
      ∧ (analyzeEmploymentCase input).actions = (analyzeEmploymentCase "").actions := by
  rw [analyzeEmploymentCase_eq]
  exact ⟨rfl, rfl, rfl, rfl⟩

/-- The analyzer behind an assessment, with its type. -/
theorem analyzeCase_cases (s : String) :
    (analyzeCase s = analyzeCriminalCase s ∧ (analyzeCase s).type = "Criminal/Civil Rights")
      ∨ (analyzeCase s = analyzeEmploymentCase s ∧ (analyzeCase s).type = "Employment Law")
      ∨ (analyzeCase s = analyzePersonalInjuryCase s ∧ (analyzeCase s).type = "Personal Injury")
      ∨ (analyzeCase s = analyzeGeneralCase s
          ∧ (analyzeCase s).type = "General Legal Matter") := by
  rw [analyzeCase_eq]
  split_ifs
  · exact Or.inl ⟨rfl, analyzeCriminalCase_type s⟩
  · exact Or.inr (Or.inl ⟨rfl, analyzeEmploymentCase_type s⟩)
  · exact Or.inr (Or.inr (Or.inl ⟨rfl, rfl⟩))
  · exact Or.inr (Or.inr (Or.inr ⟨rfl, rfl⟩))

/-! ## Settled properties, continued -/

/-- C11 at the input "Post conviction relief": the lower-cased text contains
"post conviction" and not "police", which makes the type Criminal/Civil Rights
with only the post-conviction sub-condition in play, but the analyzer tests the
text as given and misses "post conviction", so the claims are empty; the
lower-cased input gets the three post-conviction claims. The damages are all 0
for both. -/
theorem post_conviction_misses_capitals :
    (analyzeCase "Post conviction relief").type = "Criminal/Civil Rights"
      ∧ includes (toLowerCase "Post conviction relief") "post conviction" = true
      ∧ includes (toLowerCase "Post conviction relief") "police" = false
      ∧ (analyzeCase "Post conviction relief").claims = []
      ∧ (analyzeCase "Post conviction relief").damages.fields
          = [("medical", 0), ("pain", 0), ("punitive", 0), ("total", 0)]
      ∧ (analyzeCase "post conviction relief").claims
          = ["Post-Conviction Relief Petition", "Habeas Corpus Petition", "Sentence Modification"]
      ∧ (analyzeCase "post conviction relief").damages.fields
          = [("medical", 0), ("pain", 0), ("punitive", 0), ("total", 0)] := by
  decide

/-- C12: two inputs that get the same type get the same success probability,
the same documents and the same actions; the success probability is between 0
and 100, namely 65 for Criminal/Civil Rights, 75 for Employment Law, 80 for
Personal Injury and 50 for General Legal Matter. -/
theorem fixed_fields_by_type (s t : String)
    (h : (analyzeCase s).type = (analyzeCase t).type) :
    (analyzeCase s).successProbability = (analyzeCase t).successProbability
      ∧ (analyzeCase s).documents = (analyzeCase t).documents
      ∧ (analyzeCase s).actions = (analyzeCase t).actions
      ∧ 0 ≤ (analyzeCase s).successProbability
      ∧ (analyzeCase s).successProbability ≤ 100
      ∧ (analyzeCase s).successProbability =
          (if (analyzeCase s).type = "Criminal/Civil Rights" then 65
           else if (analyzeCase s).type = "Employment Law" then 75
           else if (analyzeCase s).type = "Personal Injury" then 80
           else 50) := by
  have hcs := analyzeCriminalCase_fixed s
  have hct := analyzeCriminalCase_fixed t
  have hes := analyzeEmploymentCase_fixed s
  have het := analyzeEmploymentCase_fixed t
  rcases analyzeCase_cases s with ⟨es, ts⟩ | ⟨es, ts⟩ | ⟨es, ts⟩ | ⟨es, ts⟩ <;>
  rcases analyzeCase_cases t with ⟨et, tt⟩ | ⟨et, tt⟩ | ⟨et, tt⟩ | ⟨et, tt⟩ <;>
  rw [ts, tt] at h <;>
  first
    | exact absurd h (by decide)
    | (rw [ts, es, et]
       first
         | exact ⟨hcs.2.1.trans hct.2.1.symm, hcs.2.2.1.trans hct.2.2.1.symm,
             hcs.2.2.2.trans hct.2.2.2.symm, by rw [hcs.2.1]; decide, by rw [hcs.2.1]; decide,
             hcs.2.1⟩
         | exact ⟨hes.2.1.trans het.2.1.symm, hes.2.2.1.trans het.2.2.1.symm,
             hes.2.2.2.trans het.2.2.2.symm, by rw [hes.2.1]; decide, by rw [hes.2.1]; decide,
             hes.2.1⟩
         | exact ⟨rfl, rfl, rfl, by simp [analyzePersonalInjuryCase],
             by simp [analyzePersonalInjuryCase], rfl⟩
         | exact ⟨rfl, rfl, rfl, by simp [analyzeGeneralCase], by simp [analyzeGeneralCase], rfl⟩)

/-- Witness of C12 at "police" and "he beat me", both Criminal/Civil Rights. -/
theorem fixed_fields_by_type_witness :
    (analyzeCase "police").type = (analyzeCase "he beat me").type
      ∧ (analyzeCase "police").successProbability = (analyzeCase "he beat me").successProbability
      ∧ (analyzeCase "police").documents = (analyzeCase "he beat me").documents
      ∧ (analyzeCase "police").actions = (analyzeCase "he beat me").actions :=
  ⟨by decide,
   (fixed_fields_by_type "police" "he beat me" (by decide)).1,
   (fixed_fields_by_type "police" "he beat me" (by decide)).2.1,
   (fixed_fields_by_type "police" "he beat me" (by decide)).2.2.1⟩

/-- C13: the claims list returned by `analyzeCase` has no duplicate label. -/
theorem claims_nodup (s : String) : (analyzeCase s).claims.Nodup := by
  rcases analyzeCase_cases s with ⟨e, _⟩ | ⟨e, _⟩ | ⟨e, _⟩ | ⟨e, _⟩ <;> rw [e]
  · rw [(analyzeCriminalCase_eq s).1]
    generalize (includes s "post conviction" || includes s "release") = t1
    generalize
      (includes s "police" && (includes s "beat" || includes s "excessive force")) = t2
    cases t1 <;> cases t2 <;> decide
  · rw [analyzeEmploymentCase_eq]
    show (firedLabels _).Nodup
    generalize (includes s "fired" || includes s "terminated") = t1
    generalize includes s "retaliation" = t2
    generalize includes s "discrimination" = t3
    cases t1 <;> cases t2 <;> cases t3 <;> decide
  · show ["Negligence", "Personal Injury"].Nodup
    decide
  · show ["Legal Consultation Recommended"].Nodup
    decide

/-- C14: the `issue` of the assessment is the input string itself, with its
letter case, whichever analyzer ran. -/
theorem issue_is_input (s : String) : (analyzeCase s).issue = s := by
  rcases analyzeCase_cases s with ⟨e, _⟩ | ⟨e, _⟩ | ⟨e, _⟩ | ⟨e, _⟩ <;> rw [e]
  · exact (analyzeCriminalCase_fixed s).1
  · exact (analyzeEmploymentCase_fixed s).1
  · rfl
  · rfl

/-! ## Lemmas on the templates -/

theorem dropWhile_isWhiteSpace_of_head (l : List Char)
    (h : ∃ a p, l = a :: p ∧ isWhiteSpace a = false) :
    l.dropWhile isWhiteSpace = l := by
  obtain ⟨a, p, rfl, ha⟩ := h
  simp [List.dropWhile, ha]

/-- A text that begins and ends with a character that is not white space,
wrapped in the line break and the tail of a template, is what `trim` returns. -/
theorem trim_wrapped (t : String)
    (hfirst : ∃ a p, t.data = a :: p ∧ isWhiteSpace a = false)
    (hlast : ∃ b q, t.data.reverse = b :: q ∧ isWhiteSpace b = false) :
    trim ("\n" ++ (t ++ "\n    ")) = t := by
  obtain ⟨a, p, hp, ha⟩ := hfirst
  have e1 : ("\n" ++ (t ++ "\n    ")).data = '\n' :: (t.data ++ templateTail) := rfl
  have e2 : (('\n' :: (t.data ++ templateTail)).dropWhile isWhiteSpace)
      = t.data ++ templateTail := by
    have hn : isWhiteSpace '\n' = true := by decide
    rw [List.dropWhile_cons_of_pos hn]
    exact dropWhile_isWhiteSpace_of_head _ ⟨a, p ++ templateTail, by rw [hp]; rfl, ha⟩
  have e3 : ((t.data ++ templateTail).reverse.dropWhile isWhiteSpace) = t.data.reverse := by
    rw [List.reverse_append]
    have hb : isWhiteSpace ' ' = true := by decide
    have hn : isWhiteSpace '\n' = true := by decide
    show ((' ' :: ' ' :: ' ' :: ' ' :: '\n' :: t.data.reverse).dropWhile isWhiteSpace) = _
    rw [List.dropWhile_cons_of_pos hb, List.dropWhile_cons_of_pos hb,
      List.dropWhile_cons_of_pos hb, List.dropWhile_cons_of_pos hb,
      List.dropWhile_cons_of_pos hn]
    exact dropWhile_isWhiteSpace_of_head _ hlast
  unfold trim
  rw [e1, e2, e3, List.reverse_reverse]

theorem enumFrom_map_numbered (k : Nat) (cs : List String) :
    (cs.enumFrom k).map (fun p => toString (p.1 + 1) ++ ". " ++ p.2) = numberedFrom (k + 1) cs := by
  induction cs generalizing k with
  | nil => rfl
  | cons c cs ih => simp [List.enumFrom, numberedFrom, ih]

theorem enumFrom_map_bullet (k : Nat) (cs : List String) :
    (cs.enumFrom k).map (fun p => "• " ++ p.2) = cs.map (fun claim => "• " ++ claim) := by
  induction cs generalizing k with
  | nil => rfl
  | cons c cs ih => simp [List.enumFrom, ih]

/-- Text of the petition: the template without its leading line break and
trailing blanks, with the issue in its place. -/
theorem generatePostConvictionPetition_text (a : Assessment) :
    generatePostConvictionPetition a.toCaseData = Except.ok (
      "IN THE [STATE] SUPERIOR COURT\nPOST-CONVICTION RELIEF PETITION\n\nPetitioner: [Your Name]"
      ++ "\nCase No: [Your Case Number]\n\n1. The Petitioner seeks post-conviction relief based on: "
      ++ a.issue
      ++ "\n\n2. Grounds for Relief:\n   • Ineffective assistance of counsel"
      ++ "\n   • Newly discovered evidence\n   • Constitutional violations"
      ++ "\n\n3. Requested Relief:\n   • Vacate conviction\n   • Reduce sentence\n   • New trial"
      ++ "\n\nRespectfully submitted,\n[Your Name]\nPro Se") := by
  have hi : a.toCaseData.issue = TemplateValue.text a.issue := rfl
  simp only [generatePostConvictionPetition, hi, TemplateValue.toText, bind, Except.bind, pure,
    Except.pure]
  refine congrArg Except.ok ?_
  refine Eq.trans (congrArg trim ?_) (trim_wrapped _ ⟨'I', _, rfl, by decide⟩
    ⟨'e', _, by simp only [String.data_append, List.reverse_append]; rfl, by decide⟩)
  apply String.ext
  simp only [String.data_append, List.append_assoc]
  rfl

/-- Text of the complaint for an assessment, in the number format
`toLocaleString`. -/
theorem generateComplaint_text (toLocaleString : Int → String) (a : Assessment) :
    generateComplaint toLocaleString a.toCaseData = Except.ok (
      "IN THE UNITED STATES DISTRICT COURT\nCOMPLAINT\n\nPlaintiff: [Your Name]\nvs."
      ++ "\nDefendant: [Opposing Party]\n\n1. This action arises from: " ++ a.issue
      ++ "\n\n2. Jurisdiction: This Court has jurisdiction under 28 U.S.C. § 1331\n\n3. Claims:\n"
      ++ "\n".intercalate (numberedFrom 1 a.claims)
      ++ "\n\n4. Damages: $" ++ toLocaleString a.damages.total
      ++ "\n\nWHEREFORE, Plaintiff requests judgment against Defendant."
      ++ "\n\nRespectfully submitted,\n[Your Name]\nPro Se") := by
  have hc : claimsOf a.toCaseData = Except.ok (a.claims.map TemplateValue.text) := rfl
  have hi : a.toCaseData.issue = TemplateValue.text a.issue := rfl
  simp only [generateComplaint, totalOf_toCaseData, hc, hi, TemplateValue.toText,
    mapClaims_text, enumFrom_map_numbered, bind, Except.bind, pure, Except.pure]
  refine congrArg Except.ok ?_
  refine Eq.trans (congrArg trim ?_) (trim_wrapped _ ⟨'I', _, rfl, by decide⟩
    ⟨'e', _, by simp only [String.data_append, List.reverse_append]; rfl, by decide⟩)
  apply String.ext
  simp only [String.data_append, List.append_assoc]
  rfl

/-- Text of the demand letter for an assessment, `today` being the printed date
and `toLocaleString` the number format. -/
theorem generateDemandLetter_text (toLocaleString : Int → String) (today : String)
    (a : Assessment) :
    generateDemandLetter toLocaleString today a.toCaseData = Except.ok (
      "DEMAND LETTER\n\nDate: " ++ today
      ++ "\n\nTo Whom It May Concern:\n\nRE: Legal Claim - " ++ a.type
      ++ "\n\nThis letter serves as formal notice of our intent to pursue legal action regarding: "
      ++ a.issue
      ++ "\n\nBased on our analysis, we have identified the following claims:\n"
      ++ "\n".intercalate (a.claims.map (fun claim => "• " ++ claim))
      ++ "\n\nTotal damages claimed: $" ++ toLocaleString a.damages.total
      ++ "\n\nWe demand settlement of this matter within 30 days to avoid formal litigation."
      ++ "\n\nSincerely,\nAPGC Legal AI\nAmerican Power Global Corporation") := by
  have hc : claimsOf a.toCaseData = Except.ok (a.claims.map TemplateValue.text) := rfl
  have ht : a.toCaseData.type = TemplateValue.text a.type := rfl
  have hi : a.toCaseData.issue = TemplateValue.text a.issue := rfl
  simp only [generateDemandLetter, totalOf_toCaseData, hc, ht, hi, TemplateValue.toText,
    mapClaims_text, enumFrom_map_bullet, bind, Except.bind, pure, Except.pure]
  refine congrArg Except.ok ?_
  refine Eq.trans (congrArg trim ?_) (trim_wrapped _ ⟨'D', _, rfl, by decide⟩
    ⟨'n', _, by simp only [String.data_append, List.reverse_append]; rfl, by decide⟩)
  apply String.ext
  simp only [String.data_append, List.append_assoc]
  rfl

theorem string_ne_empty_of_head (t : String) (h : ∃ a p, t.data = a :: p) :
    (t != "") = true := by
  obtain ⟨a, p, hp⟩ := h
  rw [bne_iff_ne]
  intro e
  rw [e] at hp
  exact absurd hp (by simp)

/-- Digits no longer than one group are printed as they are. -/
theorem groupDigits_short (ds : List Char) (h : ds.length ≤ 3) : groupDigits ds = ds := by
  match ds, h with
  | [], _ => rfl
  | [_], _ => rfl
  | [_, _], _ => rfl
  | [_, _, _], _ => rfl

/-- Longer digit strings: the last three digits form a group after a comma, and
the digits before them are grouped in the same way. -/
theorem groupDigits_split (ds : List Char) (h : 3 < ds.length) :
    groupDigits ds
      = groupDigits (ds.take (ds.length - 3)) ++ ',' :: ds.drop (ds.length - 3) := by
  induction ds with
  | nil => simp at h
  | cons c cs ih =>
    by_cases h3 : cs.length = 3
    · have hs : groupDigits cs = cs := groupDigits_short cs (by omega)
      simp [groupDigits, h3, hs]
      intro e
      simp [e] at h3
    · have hlt : 3 < cs.length := by simp at h; omega
      have e1 : (c :: cs).length - 3 = (cs.length - 3) + 1 := by simp; omega
      have hne : cs ≠ [] := by intro e; simp [e] at hlt
      have hne2 : List.take (cs.length - 3) cs ≠ [] := by
        intro e
        have := congrArg List.length e
        simp at this
        omega
      have hlen : (List.take (cs.length - 3) cs).length % 3 = cs.length % 3 := by
        rw [List.length_take, Nat.min_eq_left (by omega)]
        conv_rhs => rw [show cs.length = (cs.length - 3) + 3 by omega]
        simp
      rw [e1, List.take_succ_cons, List.drop_succ_cons]
      simp only [groupDigits, hlen]
      rw [ih hlt]
      by_cases hm : cs.length % 3 = 0 <;> simp [hm, hne, hne2]

/-- The grouping of digits in one equation. -/
theorem groupDigits_eq (ds : List Char) :
    groupDigits ds =
      if ds.length ≤ 3 then ds
      else groupDigits (ds.take (ds.length - 3)) ++ ',' :: ds.drop (ds.length - 3) := by
  split_ifs with h
  · exact groupDigits_short ds h
  · exact groupDigits_split ds (by omega)


/-! ## Settled properties of the renderer -/

/-- C15, as stated, fails: with `en-IN` as the default locale of the process
the complaint for the assessment of "the police beat me", whose total is
175000, has the damages line "4. Damages: $1,75,000", which is not the total
with thousands separators. -/
theorem legal_complaint_indian_grouping :
    (analyzeCase "the police beat me").damages.total = 175000
    ∧ toLocaleStringEnIN 175000 = "1,75,000"
    ∧ toLocaleStringEnIN 1234567 = "12,34,567"
    ∧ generateDocument toLocaleStringEnIN "11/4/2026" "Legal Complaint"
        (analyzeCase "the police beat me").toCaseData = Except.ok (JSValue.string (
      "IN THE UNITED STATES DISTRICT COURT\nCOMPLAINT\n\nPlaintiff: [Your Name]\nvs."
      ++ "\nDefendant: [Opposing Party]\n\n1. This action arises from: " ++ "the police beat me"
      ++ "\n\n2. Jurisdiction: This Court has jurisdiction under 28 U.S.C. § 1331\n\n3. Claims:\n"
      ++ "\n".intercalate ["1. Police Brutality - 42 USC § 1983", "2. Excessive Force",
          "3. Civil Rights Violation"]
      ++ "\n\n4. Damages: $" ++ "1,75,000"
      ++ "\n\nWHEREFORE, Plaintiff requests judgment against Defendant."
      ++ "\n\nRespectfully submitted,\n[Your Name]\nPro Se")) := by
  have ht : (analyzeCase "the police beat me").damages.total = 175000 := by decide
  have hf : toLocaleStringEnIN 175000 = "1,75,000" := by decide
  refine ⟨ht, hf, by decide, ?_⟩
  simp only [generateDocument, generateDemandLetter_text, generateComplaint_text,
    generatePostConvictionPetition_text, bind, Except.bind, pure, Except.pure, getProperty]
  have e1 : ("Legal Complaint" == "Demand Letter") = false := by decide
  have e2 : ("Legal Complaint" == "Legal Complaint") = true := by decide
  simp only [List.lookup, e1, e2, JSValue.truthy]
  split_ifs with hcond
  · have hi : (analyzeCase "the police beat me").issue = "the police beat me" := by decide
    have hc : numberedFrom 1 (analyzeCase "the police beat me").claims
        = ["1. Police Brutality - 42 USC § 1983", "2. Excessive Force",
            "3. Civil Rights Violation"] := by decide
    rw [ht, hi, hc, hf]
  · exact (hcond (string_ne_empty_of_head _ ⟨'I', _, rfl⟩)).elim

/-- C15, amended: for every assessment and every number format of the process,
the document of type Legal Complaint is the complaint text with the issue after
"1. This action arises from: ", the claims numbered from 1 in their order, one
per line, and the line "4. Damages: $" followed by the total in that number
format; in the `en-US` format that is a minus sign for a negative amount, then
the decimal digits with a comma before every group of three counted from the
right. -/
theorem legal_complaint_text (toLocaleString : Int → String) (today : String)
    (a : Assessment) :
    generateDocument toLocaleString today "Legal Complaint" a.toCaseData
      = Except.ok (JSValue.string (
      "IN THE UNITED STATES DISTRICT COURT\nCOMPLAINT\n\nPlaintiff: [Your Name]\nvs."
      ++ "\nDefendant: [Opposing Party]\n\n1. This action arises from: " ++ a.issue
      ++ "\n\n2. Jurisdiction: This Court has jurisdiction under 28 U.S.C. § 1331\n\n3. Claims:\n"
      ++ "\n".intercalate (numberedFrom 1 a.claims)
      ++ "\n\n4. Damages: $" ++ toLocaleString a.damages.total
      ++ "\n\nWHEREFORE, Plaintiff requests judgment against Defendant."
      ++ "\n\nRespectfully submitted,\n[Your Name]\nPro Se"))
    ∧ toLocaleStringEnUS a.damages.total
        = (if a.damages.total < 0 then "-" else "")
          ++ String.mk (groupDigits (Nat.toDigits 10 a.damages.total.natAbs))
    ∧ groupDigits (Nat.toDigits 10 a.damages.total.natAbs)
        = (if (Nat.toDigits 10 a.damages.total.natAbs).length ≤ 3
            then Nat.toDigits 10 a.damages.total.natAbs
            else groupDigits ((Nat.toDigits 10 a.damages.total.natAbs).take
                ((Nat.toDigits 10 a.damages.total.natAbs).length - 3))
              ++ ',' :: (Nat.toDigits 10 a.damages.total.natAbs).drop
                ((Nat.toDigits 10 a.damages.total.natAbs).length - 3)) := by
  refine ⟨?_, ?_, groupDigits_eq _⟩
  · simp only [generateDocument, generateDemandLetter_text, generateComplaint_text,
      generatePostConvictionPetition_text, bind, Except.bind, pure, Except.pure, getProperty]
    have e1 : ("Legal Complaint" == "Demand Letter") = false := by decide
    have e2 : ("Legal Complaint" == "Legal Complaint") = true := by decide
    simp only [List.lookup, e1, e2, JSValue.truthy]
    split_ifs with hcond
    · rfl
    · exact (hcond (string_ne_empty_of_head _ ⟨'I', _, rfl⟩)).elim
  · unfold toLocaleStringEnUS
    split_ifs
    · rfl
    · apply String.ext
      simp

/-- C16, as stated, fails: with `de-DE` as the default locale of the process the
demand letter for the assessment of "the police beat me", whose total is
175000, has the line "Total damages claimed: $175.000", with a full stop and
not a comma between the groups, and differs from the letter printed for the
same assessment and date under `en-US`. -/
theorem demand_letter_german_grouping :
    0 ≤ (analyzeCase "the police beat me").damages.total
    ∧ toLocaleStringDeDE 175000 = "175.000"
    ∧ generateDocument toLocaleStringDeDE "11/4/2026" "Demand Letter"
        (analyzeCase "the police beat me").toCaseData = Except.ok (JSValue.string (
      "DEMAND LETTER\n\nDate: " ++ "11/4/2026"
      ++ "\n\nTo Whom It May Concern:\n\nRE: Legal Claim - " ++ "Criminal/Civil Rights"
      ++ "\n\nThis letter serves as formal notice of our intent to pursue legal action regarding: "
      ++ "the police beat me"
      ++ "\n\nBased on our analysis, we have identified the following claims:\n"
      ++ "\n".intercalate ["• Police Brutality - 42 USC § 1983", "• Excessive Force",
          "• Civil Rights Violation"]
      ++ "\n\nTotal damages claimed: $" ++ "175.000"
      ++ "\n\nWe demand settlement of this matter within 30 days to avoid formal litigation."
      ++ "\n\nSincerely,\nAPGC Legal AI\nAmerican Power Global Corporation"))
    ∧ generateDocument toLocaleStringDeDE "11/4/2026" "Demand Letter"
        (analyzeCase "the police beat me").toCaseData
      ≠ generateDocument toLocaleStringEnUS "11/4/2026" "Demand Letter"
        (analyzeCase "the police beat me").toCaseData := by
  have key : ∀ (f : Int → String) (total : String), f 175000 = total →
      generateDocument f "11/4/2026" "Demand Letter"
        (analyzeCase "the police beat me").toCaseData = Except.ok (JSValue.string (
      "DEMAND LETTER\n\nDate: " ++ "11/4/2026"
      ++ "\n\nTo Whom It May Concern:\n\nRE: Legal Claim - " ++ "Criminal/Civil Rights"
      ++ "\n\nThis letter serves as formal notice of our intent to pursue legal action regarding: "
      ++ "the police beat me"
      ++ "\n\nBased on our analysis, we have identified the following claims:\n"
      ++ "\n".intercalate ["• Police Brutality - 42 USC § 1983", "• Excessive Force",
          "• Civil Rights Violation"]
      ++ "\n\nTotal damages claimed: $" ++ total
      ++ "\n\nWe demand settlement of this matter within 30 days to avoid formal litigation."
      ++ "\n\nSincerely,\nAPGC Legal AI\nAmerican Power Global Corporation")) := by
    intro f total hf
    simp only [generateDocument, generateDemandLetter_text, generateComplaint_text,
      generatePostConvictionPetition_text, bind, Except.bind, pure, Except.pure, getProperty]
    have e1 : ("Demand Letter" == "Demand Letter") = true := by decide
    simp only [List.lookup, e1, JSValue.truthy]
    split_ifs with hcond
    · have ht : (analyzeCase "the police beat me").damages.total = 175000 := by decide
      have hty : (analyzeCase "the police beat me").type = "Criminal/Civil Rights" := by decide
      have hi : (analyzeCase "the police beat me").issue = "the police beat me" := by decide
      have hc : (analyzeCase "the police beat me").claims.map (fun claim => "• " ++ claim)
          = ["• Police Brutality - 42 USC § 1983", "• Excessive Force",
              "• Civil Rights Violation"] := by decide
      rw [ht, hty, hi, hc, hf]
    · exact (hcond (string_ne_empty_of_head _ ⟨'D', _, rfl⟩)).elim
  have hde : toLocaleStringDeDE 175000 = "175.000" := by decide
  have hus : toLocaleStringEnUS 175000 = "175,000" := by decide
  refine ⟨by decide, hde, key toLocaleStringDeDE "175.000" hde, ?_⟩
  rw [key toLocaleStringDeDE "175.000" hde, key toLocaleStringEnUS "175,000" hus]
  intro h
  have h' := congrArg String.data (JSValue.string.inj (Except.ok.inj h))
  simp only [String.data_append, List.append_assoc, List.append_cancel_left_eq,
    List.append_cancel_right_eq] at h'
  exact absurd h' (by decide)

/-- C16, amended: for every assessment with a non-negative total, every printed
date and every number format of the process, the document of type Demand
Letter is the letter text with the date after "Date: ", the type after
"RE: Legal Claim - ", the issue, one line "• c" per claim c in claim order, and
"Total damages claimed: $" followed by the total in that number format; in the
`en-US` format that is the decimal digits of the total with a comma before
every group of three counted from the right, 175000 printed as 175,000 and 0
as 0. -/
theorem demand_letter_text (toLocaleString : Int → String) (today : String) (a : Assessment)
    (h : 0 ≤ a.damages.total) :
    generateDocument toLocaleString today "Demand Letter" a.toCaseData
      = Except.ok (JSValue.string (
      "DEMAND LETTER\n\nDate: " ++ today
      ++ "\n\nTo Whom It May Concern:\n\nRE: Legal Claim - " ++ a.type
      ++ "\n\nThis letter serves as formal notice of our intent to pursue legal action regarding: "
      ++ a.issue
      ++ "\n\nBased on our analysis, we have identified the following claims:\n"
      ++ "\n".intercalate (a.claims.map (fun claim => "• " ++ claim))
      ++ "\n\nTotal damages claimed: $" ++ toLocaleString a.damages.total
      ++ "\n\nWe demand settlement of this matter within 30 days to avoid formal litigation."
      ++ "\n\nSincerely,\nAPGC Legal AI\nAmerican Power Global Corporation"))
    ∧ toLocaleStringEnUS a.damages.total
        = String.mk (groupDigits (Nat.toDigits 10 a.damages.total.toNat))
    ∧ groupDigits (Nat.toDigits 10 a.damages.total.toNat)
        = (if (Nat.toDigits 10 a.damages.total.toNat).length ≤ 3
            then Nat.toDigits 10 a.damages.total.toNat
            else groupDigits ((Nat.toDigits 10 a.damages.total.toNat).take
                ((Nat.toDigits 10 a.damages.total.toNat).length - 3))
              ++ ',' :: (Nat.toDigits 10 a.damages.total.toNat).drop
                ((Nat.toDigits 10 a.damages.total.toNat).length - 3))
    ∧ toLocaleStringEnUS 175000 = "175,000"
    ∧ toLocaleStringEnUS 0 = "0" := by
  refine ⟨?_, ?_, groupDigits_eq _, by decide, by decide⟩
  · simp only [generateDocument, generateDemandLetter_text, generateComplaint_text,
      generatePostConvictionPetition_text, bind, Except.bind, pure, Except.pure, getProperty]
    have e1 : ("Demand Letter" == "Demand Letter") = true := by decide
    simp only [List.lookup, e1, JSValue.truthy]
    split_ifs with hcond
    · rfl
    · exact (hcond (string_ne_empty_of_head _ ⟨'D', _, rfl⟩)).elim
  · unfold toLocaleStringEnUS
    have hn : ¬ a.damages.total < 0 := by omega
    have e : a.damages.total.natAbs = a.damages.total.toNat := by omega
    rw [if_neg hn, e]

/-- Witness of the amended C16 at the assessment of "the police beat me", whose
total is 175000, in the `en-US` number format. -/
theorem demand_letter_text_witness :
    0 ≤ (analyzeCase "the police beat me").damages.total
      ∧ toLocaleStringEnUS (analyzeCase "the police beat me").damages.total = "175,000"
      ∧ generateDocument toLocaleStringEnUS "11/4/2026" "Demand Letter"
          (analyzeCase "the police beat me").toCaseData
        = Except.ok (JSValue.string (
          "DEMAND LETTER\n\nDate: " ++ "11/4/2026"
          ++ "\n\nTo Whom It May Concern:\n\nRE: Legal Claim - "
          ++ (analyzeCase "the police beat me").type
          ++ "\n\nThis letter serves as formal notice of our intent to pursue legal action regarding: "
          ++ (analyzeCase "the police beat me").issue
          ++ "\n\nBased on our analysis, we have identified the following claims:\n"
          ++ "\n".intercalate
            ((analyzeCase "the police beat me").claims.map (fun claim => "• " ++ claim))
          ++ "\n\nTotal damages claimed: $"
          ++ toLocaleStringEnUS (analyzeCase "the police beat me").damages.total
          ++ "\n\nWe demand settlement of this matter within 30 days to avoid formal litigation."
          ++ "\n\nSincerely,\nAPGC Legal AI\nAmerican Power Global Corporation")) :=
  ⟨by decide, by decide,
   (demand_letter_text toLocaleStringEnUS "11/4/2026" (analyzeCase "the police beat me")
     (by decide)).1⟩

/-- C17: the document of type Post-Conviction Petition is the petition text with
the issue in it and nothing else of the assessment; two assessments with the
same issue get the same text, whatever their type, claims, damages and the
date. -/
theorem petition_depends_on_issue_only (toLocaleString toLocaleString' : Int → String)
    (today today' : String) (a b : Assessment) (h : a.issue = b.issue) :
    generateDocument toLocaleString today "Post-Conviction Petition" a.toCaseData
        = generateDocument toLocaleString' today' "Post-Conviction Petition" b.toCaseData
    ∧ generateDocument toLocaleString today "Post-Conviction Petition" a.toCaseData
        = Except.ok (JSValue.string (
      "IN THE [STATE] SUPERIOR COURT\nPOST-CONVICTION RELIEF PETITION\n\nPetitioner: [Your Name]"
      ++ "\nCase No: [Your Case Number]\n\n1. The Petitioner seeks post-conviction relief based on: "
      ++ a.issue
      ++ "\n\n2. Grounds for Relief:\n   • Ineffective assistance of counsel"
      ++ "\n   • Newly discovered evidence\n   • Constitutional violations"
      ++ "\n\n3. Requested Relief:\n   • Vacate conviction\n   • Reduce sentence\n   • New trial"
      ++ "\n\nRespectfully submitted,\n[Your Name]\nPro Se")) := by
  have key : ∀ (f : Int → String) (d : String) (x : Assessment),
      generateDocument f d "Post-Conviction Petition" x.toCaseData
        = Except.ok (JSValue.string (
      "IN THE [STATE] SUPERIOR COURT\nPOST-CONVICTION RELIEF PETITION\n\nPetitioner: [Your Name]"
      ++ "\nCase No: [Your Case Number]\n\n1. The Petitioner seeks post-conviction relief based on: "
      ++ x.issue
      ++ "\n\n2. Grounds for Relief:\n   • Ineffective assistance of counsel"
      ++ "\n   • Newly discovered evidence\n   • Constitutional violations"
      ++ "\n\n3. Requested Relief:\n   • Vacate conviction\n   • Reduce sentence\n   • New trial"
      ++ "\n\nRespectfully submitted,\n[Your Name]\nPro Se")) := by
    intro f d x
    simp only [generateDocument, generateDemandLetter_text, generateComplaint_text,
      generatePostConvictionPetition_text, bind, Except.bind, pure, Except.pure, getProperty]
    have e1 : ("Post-Conviction Petition" == "Demand Letter") = false := by decide
    have e2 : ("Post-Conviction Petition" == "Legal Complaint") = false := by decide
    have e3 : ("Post-Conviction Petition" == "Post-Conviction Petition") = true := by decide
    simp only [List.lookup, e1, e2, e3, JSValue.truthy]
    split_ifs with hcond
    · rfl
    · exact (hcond (string_ne_empty_of_head _ ⟨'I', _, rfl⟩)).elim
  exact ⟨by rw [key toLocaleString today a, key toLocaleString' today' b, h],
    key toLocaleString today a⟩

/-- Witness of C17 at two assessments of the same text, one made by the criminal
analyzer and one by the general analyzer. -/
theorem petition_depends_on_issue_only_witness :
    (analyzeCriminalCase "the police beat me").issue
        = (analyzeGeneralCase "the police beat me").issue
    ∧ (analyzeCriminalCase "the police beat me").claims
        ≠ (analyzeGeneralCase "the police beat me").claims
    ∧ generateDocument toLocaleStringEnUS "11/4/2026" "Post-Conviction Petition"
          (analyzeCriminalCase "the police beat me").toCaseData
        = generateDocument toLocaleStringDeDE "1/1/2027" "Post-Conviction Petition"
          (analyzeGeneralCase "the police beat me").toCaseData :=
  ⟨by decide, by decide,
   (petition_depends_on_issue_only toLocaleStringEnUS toLocaleStringDeDE "11/4/2026" "1/1/2027"
     (analyzeCriminalCase "the police beat me") (analyzeGeneralCase "the police beat me")
     (by decide)).1⟩

/-- C18: a document name that `analyzeCase` suggests renders to the sentinel
"Document template not found" when it is not "Demand Letter"; every name
suggested for a Criminal/Civil Rights or General assessment does. -/
theorem suggested_documents_not_rendered (toLocaleString : Int → String) (today s d : String)
    (hd : d ∈ (analyzeCase s).documents)
    (hne : d ≠ "Demand Letter" ∨ (analyzeCase s).type = "Criminal/Civil Rights"
      ∨ (analyzeCase s).type = "General Legal Matter") :
    generateDocument toLocaleString today d (analyzeCase s).toCaseData
      = Except.ok (JSValue.string "Document template not found") := by
  have hdl : d ≠ "Demand Letter" := by
    rcases hne with h | h | h
    · exact h
    · rw [analyzeCase_of_type_criminal s h, (analyzeCriminalCase_fixed s).2.2.1] at hd
      intro e
      rw [e] at hd
      exact absurd hd (by decide)
    · rcases analyzeCase_cases s with ⟨_, t⟩ | ⟨_, t⟩ | ⟨_, t⟩ | ⟨e, _⟩
      · rw [t] at h; exact absurd h (by decide)
      · rw [t] at h; exact absurd h (by decide)
      · rw [t] at h; exact absurd h (by decide)
      · rw [e] at hd
        intro e'
        rw [e'] at hd
        have hd' : "Demand Letter" ∈ ["Legal Consultation Form"] := hd
        exact absurd hd' (by decide)
  have hmem : d ∈ ["Post-Conviction Relief Petition", "Civil Rights Complaint",
      "Police Brutality Lawsuit", "EEOC Charge", "Wrongful Termination Complaint",
      "Demand Letter", "Personal Injury Complaint", "Settlement Agreement",
      "Legal Consultation Form"] := by
    rcases analyzeCase_cases s with ⟨e, _⟩ | ⟨e, _⟩ | ⟨e, _⟩ | ⟨e, _⟩ <;> rw [e] at hd
    · rw [(analyzeCriminalCase_fixed s).2.2.1] at hd
      exact (by decide : ∀ x ∈ ["Post-Conviction Relief Petition", "Civil Rights Complaint",
        "Police Brutality Lawsuit"], x ∈ ["Post-Conviction Relief Petition",
        "Civil Rights Complaint", "Police Brutality Lawsuit", "EEOC Charge",
        "Wrongful Termination Complaint", "Demand Letter", "Personal Injury Complaint",
        "Settlement Agreement", "Legal Consultation Form"]) d hd
    · rw [(analyzeEmploymentCase_fixed s).2.2.1] at hd
      exact (by decide : ∀ x ∈ ["EEOC Charge", "Wrongful Termination Complaint",
        "Demand Letter"], x ∈ ["Post-Conviction Relief Petition",
        "Civil Rights Complaint", "Police Brutality Lawsuit", "EEOC Charge",
        "Wrongful Termination Complaint", "Demand Letter", "Personal Injury Complaint",
        "Settlement Agreement", "Legal Consultation Form"]) d hd
    · exact (by decide : ∀ x ∈ ["Personal Injury Complaint", "Demand Letter",
        "Settlement Agreement"], x ∈ ["Post-Conviction Relief Petition",
        "Civil Rights Complaint", "Police Brutality Lawsuit", "EEOC Charge",
        "Wrongful Termination Complaint", "Demand Letter", "Personal Injury Complaint",
        "Settlement Agreement", "Legal Consultation Form"]) d hd
    · exact (by decide : ∀ x ∈ ["Legal Consultation Form"], x ∈ [
        "Post-Conviction Relief Petition",
        "Civil Rights Complaint", "Police Brutality Lawsuit", "EEOC Charge",
        "Wrongful Termination Complaint", "Demand Letter", "Personal Injury Complaint",
        "Settlement Agreement", "Legal Consultation Form"]) d hd
  have hside : ∀ x ∈ ["Post-Conviction Relief Petition", "Civil Rights Complaint",
      "Police Brutality Lawsuit", "EEOC Charge", "Wrongful Termination Complaint",
      "Demand Letter", "Personal Injury Complaint", "Settlement Agreement",
      "Legal Consultation Form"],
      x ≠ "Legal Complaint" ∧ x ≠ "Post-Conviction Petition"
        ∧ objectPrototypeKeys.contains x = false := by decide
  obtain ⟨h2, h3, h4⟩ := hside d hmem
  exact generateDocument_unknown toLocaleString today d (analyzeCase s) hdl h2 h3 h4

/-- Witness of C18 at "EEOC Charge", suggested for "I was fired", and at
"Civil Rights Complaint", suggested for "the police beat me". -/
theorem suggested_documents_not_rendered_witness :
    "EEOC Charge" ∈ (analyzeCase "I was fired").documents
    ∧ generateDocument toLocaleStringEnUS "11/4/2026" "EEOC Charge"
          (analyzeCase "I was fired").toCaseData
        = Except.ok (JSValue.string "Document template not found")
    ∧ "Civil Rights Complaint" ∈ (analyzeCase "the police beat me").documents
    ∧ generateDocument toLocaleStringEnUS "11/4/2026" "Civil Rights Complaint"
          (analyzeCase "the police beat me").toCaseData
        = Except.ok (JSValue.string "Document template not found") :=
  ⟨by decide,
   suggested_documents_not_rendered toLocaleStringEnUS "11/4/2026" "I was fired" "EEOC Charge"
     (by decide)
     (Or.inl (by decide)),
   by decide,
   suggested_documents_not_rendered toLocaleStringEnUS "11/4/2026" "the police beat me"
     "Civil Rights Complaint"
     (by decide) (Or.inr (Or.inl (by decide)))⟩

/-- C19: an input assessed as Employment Law that contains none of "fired",
"terminated", "retaliation", "discrimination", and an input assessed as
Criminal/Civil Rights in which neither sub-condition holds, get an empty claims
list and damages whose fields, total included, are all 0, with success
probability 75 for the first and 65 for the second. -/
theorem assessment_without_claims (s : String)
    (h : ((analyzeCase s).type = "Employment Law"
          ∧ containsAny s ["fired", "terminated", "retaliation", "discrimination"] = false)
      ∨ ((analyzeCase s).type = "Criminal/Civil Rights"
          ∧ (includes s "post conviction" || includes s "release") = false
          ∧ (includes s "police" && (includes s "beat" || includes s "excessive force"))
              = false)) :
    (analyzeCase s).claims = []
      ∧ (analyzeCase s).damages.fields.all (fun p => p.2 == 0) = true
      ∧ (analyzeCase s).damages.total = 0
      ∧ (analyzeCase s).successProbability
          = (if (analyzeCase s).type = "Employment Law" then 75 else 65) := by
  rcases h with ⟨ht, hk⟩ | ⟨ht, h1, h2⟩
  · simp only [containsAny, List.any, Bool.or_false, Bool.or_eq_false_iff] at hk
    obtain ⟨hf, hte, hr, hd⟩ := hk
    rw [if_pos ht, analyzeCase_of_type_employment s ht, analyzeEmploymentCase_eq, hf, hte, hr, hd]
    exact ⟨rfl, rfl, rfl, rfl⟩
  · have hne : ¬ (analyzeCase s).type = "Employment Law" := by
      rw [ht]; decide
    rw [if_neg hne, analyzeCase_of_type_criminal s ht, (analyzeCriminalCase_eq s).1,
      (analyzeCriminalCase_eq s).2, (analyzeCriminalCase_fixed s).2.1, h1, h2]
    exact ⟨rfl, rfl, rfl, rfl⟩

/-- Witness of C19 at "work" (Employment Law) and "beat" (Criminal/Civil
Rights). -/
theorem assessment_without_claims_witness :
    ((analyzeCase "work").type = "Employment Law" ∧ (analyzeCase "work").claims = []
        ∧ (analyzeCase "work").damages.total = 0
        ∧ (analyzeCase "work").successProbability = 75)
    ∧ ((analyzeCase "beat").type = "Criminal/Civil Rights" ∧ (analyzeCase "beat").claims = []
        ∧ (analyzeCase "beat").damages.total = 0
        ∧ (analyzeCase "beat").successProbability = 65) :=
  ⟨⟨by decide,
    (assessment_without_claims "work" (Or.inl ⟨by decide, by decide⟩)).1,
    (assessment_without_claims "work" (Or.inl ⟨by decide, by decide⟩)).2.2.1,
    by decide⟩,
   ⟨by decide,
    (assessment_without_claims "beat" (Or.inr ⟨by decide, by decide, by decide⟩)).1,
    (assessment_without_claims "beat" (Or.inr ⟨by decide, by decide, by decide⟩)).2.2.1,
    by decide⟩⟩

/-- Printing a list of claims succeeds exactly when every claim is printable. -/
theorem mapClaims_isOk (line : Nat → String → String) (k : Nat) (cs : List TemplateValue) :
    (mapClaims line k cs).isOk = cs.all TemplateValue.printable := by
  induction cs generalizing k with
  | nil => rfl
  | cons c cs ih =>
    cases c with
    | unprintable => rfl
    | text t =>
      have h := ih (k + 1)
      cases hm : mapClaims line (k + 1) cs with
      | error e =>
        rw [hm] at h
        simp only [mapClaims, TemplateValue.toText, hm, bind, Except.bind, List.all_cons,
          TemplateValue.printable, Bool.true_and, ← h]
      | ok ls =>
        rw [hm] at h
        simp only [mapClaims, TemplateValue.toText, hm, bind, Except.bind, pure, Except.pure,
          List.all_cons, TemplateValue.printable, Bool.true_and, ← h]
        rfl

/-- C20, as stated, fails: a `caseData` with a claims list and a numeric
`damages.total` whose `issue` cannot be converted to a string makes
`generateDocument` throw, for the three template names and for an unknown
document type alike. -/
theorem generateDocument_unprintable_issue :
    unprintableIssueCase.claims = ClaimsField.array [TemplateValue.text "Wrongful Termination"]
    ∧ unprintableIssueCase.damages.bind (fun d => d.lookup "total") = some 40000
    ∧ generateDocument toLocaleStringEnUS "11/4/2026" "Demand Letter" unprintableIssueCase
        = Except.error "TypeError: Cannot convert object to primitive value"
    ∧ generateDocument toLocaleStringEnUS "11/4/2026" "Legal Complaint" unprintableIssueCase
        = Except.error "TypeError: Cannot convert object to primitive value"
    ∧ generateDocument toLocaleStringEnUS "11/4/2026" "Post-Conviction Petition" unprintableIssueCase
        = Except.error "TypeError: Cannot convert object to primitive value"
    ∧ generateDocument toLocaleStringEnUS "11/4/2026" "Settlement Agreement" unprintableIssueCase
        = Except.error "TypeError: Cannot convert object to primitive value" :=
  ⟨rfl, rfl, rfl, rfl, rfl, rfl⟩

/-- C20, amended: `generateDocument` returns a value exactly when `caseData` has
a claims list and a `damages.total` and its type, issue and claims can be
converted to strings, whatever the document type is: without a claims list or
without a `damages.total` it throws for every document type, the petition and
the unknown ones included. -/
theorem generateDocument_returns_iff (toLocaleString : Int → String) (today docType : String)
    (caseData : CaseData) :
    (generateDocument toLocaleString today docType caseData).isOk
      = (caseData.type.printable && caseData.issue.printable
          && (match caseData.claims with
              | ClaimsField.array claims => claims.all TemplateValue.printable
              | _ => false)
          && (caseData.damages.bind (fun d => d.lookup "total")).isSome) := by
  obtain ⟨type, issue, claims, damages⟩ := caseData
  cases type with
  | unprintable => rfl
  | text ty =>
  cases issue with
  | unprintable => rfl
  | text iss =>
  cases claims with
  | missing => rfl
  | notArray => rfl
  | array cs =>
  have h0 := mapClaims_isOk (fun _ claim => "• " ++ claim) 0 cs
  have h1 := mapClaims_isOk (fun index claim => toString (index + 1) ++ ". " ++ claim) 0 cs
  cases hm0 : mapClaims (fun _ claim => "• " ++ claim) 0 cs with
  | error e =>
    rw [hm0] at h0
    simp only [generateDocument, generateDemandLetter, claimsOf, TemplateValue.toText, hm0, bind,
      Except.bind, TemplateValue.printable, Bool.true_and, ← h0]
    rfl
  | ok ls0 =>
  cases hm1 : mapClaims (fun index claim => toString (index + 1) ++ ". " ++ claim) 0 cs with
  | error e =>
    rw [hm0] at h0
    rw [hm1, ← h0] at h1
    simp [Except.isOk, Except.toBool] at h1
  | ok ls1 =>
  rw [hm0] at h0
  cases damages with
  | none =>
    simp only [generateDocument, generateDemandLetter, claimsOf, totalOf, TemplateValue.toText,
      hm0, bind, Except.bind, pure, Except.pure, Option.bind, Option.isSome, Bool.and_false]
    rfl
  | some d =>
    cases ht : d.lookup "total" with
    | none =>
      simp only [generateDocument, generateDemandLetter, claimsOf, totalOf, TemplateValue.toText,
        hm0, ht, bind, Except.bind, pure, Except.pure, Option.bind, Option.isSome,
        Bool.and_false]
      rfl
    | some t =>
      simp only [generateDocument, generateDemandLetter, generateComplaint,
        generatePostConvictionPetition, claimsOf, totalOf, TemplateValue.toText,
        hm0, hm1, ht, bind, Except.bind, pure, Except.pure, Option.bind, Option.isSome,
        TemplateValue.printable, Bool.true_and, Bool.and_true, ← h0]
      rfl

end LegalAI
